import Mathlib

/-!
Verification of the py-stratum routine loader, fingerprint evaluator and
wrapper code generator.  All definitions below are shallow embeddings of the
Python sources:

  - pystratum/mssql/RoutineLoaderHelper.py  (the concrete MS SQL loader)
  - pystratum/RoutineLoaderHelper.py        (the abstract base loader)
  - pystratum/mysql/wrapper/Wrapper.py      (the wrapper code generator)
  - pystratum/command/WrapperCommand.py     (the wrapper command entry point)
  - pystratum/Constants.py                  (the constants entry point)

Python dictionaries are modelled as ordered association lists (insertion
order preserved, keys unique), strings as Lean strings (ASCII range; Python
case folding and the regex classes involved are ASCII on all inputs the
loader handles), machine integers as Int, and fallible code as Option or
Except.  External effects (database calls) are modelled by an explicit trace
of operations.
-/

set_option autoImplicit false

namespace PyStratum

/-! ## Ordered association lists: the model of Python dict -/

/-- First-match lookup, the model of `d[k]` and `k in d` for a dict held as
an insertion-ordered association list. -/
def dlookup {α : Type} (m : List (String × α)) (k : String) : Option α :=
  match m with
  | [] => none
  | (k', v) :: t => if k' = k then some v else dlookup t k

/-- Insert-or-update, the model of `d[k] = v`: an existing key keeps its
position, a fresh key is appended at the end (Python dict insertion order). -/
def dinsert {α : Type} (k : String) (v : α) (m : List (String × α)) :
    List (String × α) :=
  match m with
  | [] => [(k, v)]
  | (k', v') :: t => if k' = k then (k, v) :: t else (k', v') :: dinsert k v t

/-- Deletion, the model of `del d[k]`: removes the (unique) entry with key
`k`; a missing key leaves the list unchanged (the source always guards the
deletion with a membership test). -/
def derase {α : Type} (k : String) (m : List (String × α)) :
    List (String × α) :=
  match m with
  | [] => []
  | (k', v') :: t => if k' = k then t else (k', v') :: derase k t

/-! ## Character classes and scanners

The Python sources locate tokens with `re`.  Each pattern used by the code
is compiled here into a direct scanner over the character list.  For every
pattern below, the character classes exclude the characters that follow
them, so the greedy scan without backtracking computes exactly the match
Python finds; `findall` scanning (leftmost, non-overlapping) is modelled by
advancing one character on failure and past the match on success. -/

/-- The class `[A-Za-z0-9_.]` of the placeholder pattern. -/
def isPhChar (c : Char) : Bool :=
  c.isAlpha || c.isDigit || c = '_' || c = '.'

/-- The class `\w` = `[A-Za-z0-9_]` (ASCII fragment). -/
def isWordChar (c : Char) : Bool :=
  c.isAlpha || c.isDigit || c = '_'

/-- The class `[a-zA-Z0-9_,]` of the bulk-insert argument pattern. -/
def isColChar (c : Char) : Bool :=
  c.isAlpha || c.isDigit || c = '_' || c = ','

/-- Splits a character list into its maximal prefix of characters satisfying
`p` and the rest (the greedy scan of a `+` or `*` over a character class). -/
def takeWhileSplit (p : Char → Bool) : List Char → List Char × List Char
  | [] => ([], [])
  | c :: t =>
    if p c then
      let s := takeWhileSplit p t
      (c :: s.1, s.2)
    else ([], c :: t)

/-- Consumes a literal character sequence, the model of a literal fragment
of a pattern. -/
def dropLit : List Char → List Char → Option (List Char)
  | [], cs => some cs
  | _ :: _, [] => none
  | l :: ls, c :: cs => if c = l then dropLit ls cs else none

/-- `str.lower` (ASCII fragment), evaluated character-wise so that the
kernel can compute it. -/
def pyLower (s : String) : String :=
  String.mk (s.data.map Char.toLower)

/-- `str.split(sep)` for a one-character separator: no empty-run collapse,
an empty string yields one empty part. -/
def splitOnChar (sep : Char) : List Char → List (List Char)
  | [] => [[]]
  | c :: t =>
    if c = sep then [] :: splitOnChar sep t
    else
      match splitOnChar sep t with
      | [] => [[c]]
      | h :: r => (c :: h) :: r

def pySplit (sep : Char) (s : String) : List String :=
  (splitOnChar sep s.data).map String.mk

/-- `str.replace`: replaces the non-overlapping occurrences of a (non-empty)
pattern left to right, not rescanning the replacement text.  The fuel is
the input length plus one, which the scan never exhausts. -/
def replaceAux (pat rep : List Char) : Nat → List Char → List Char
  | 0, cs => cs
  | _ + 1, [] => []
  | fuel + 1, c :: t =>
    match dropLit pat (c :: t) with
    | some rest => rep ++ replaceAux pat rep fuel rest
    | none => c :: replaceAux pat rep fuel t

def pyReplace (s pat rep : String) : String :=
  String.mk (replaceAux pat.data rep.data (s.data.length + 1) s.data)

/-- One attempt of the placeholder pattern `(@[A-Za-z0-9_.]+(%type)?@)`
(file RoutineLoaderHelper.py, `_get_placeholders`) at the head of the
input: returns the matched token and the remaining input. -/
def matchPlaceholderAt (cs : List Char) : Option (List Char × List Char) :=
  match cs with
  | '@' :: rest =>
    if (takeWhileSplit isPhChar rest).1 = [] then none
    else
      match dropLit ['%', 't', 'y', 'p', 'e', '@'] (takeWhileSplit isPhChar rest).2 with
      | some r2 =>
        some ('@' :: ((takeWhileSplit isPhChar rest).1 ++
          ['%', 't', 'y', 'p', 'e', '@']), r2)
      | none =>
        match (takeWhileSplit isPhChar rest).2 with
        | '@' :: r2 => some ('@' :: ((takeWhileSplit isPhChar rest).1 ++ ['@']), r2)
        | _ => none
  | _ => none

/-- `re.findall` of the placeholder pattern: all non-overlapping matches in
source order.  The fuel argument bounds the scan; it is instantiated with
the input length plus one, which the scan (consuming at least one character
per step) never exhausts. -/
def findPlaceholdersAux : Nat → List Char → List String
  | 0, _ => []
  | _ + 1, [] => []
  | fuel + 1, c :: t =>
    match matchPlaceholderAt (c :: t) with
    | some (m, r) => String.mk m :: findPlaceholdersAux fuel r
    | none => findPlaceholdersAux fuel t

def findPlaceholders (source : String) : List String :=
  findPlaceholdersAux (source.data.length + 1) source.data

/-- One attempt of the designation pattern
`\s*--\s+type:\s*(\w+)\s*(.+)?\s*` (mssql `_get_designation_type`) at a
position whose leading `\s*` fragment has already been absorbed by the
position scan: returns the designation word and the argument text (empty
when the optional group does not participate). -/
def matchTypeLineAt (cs : List Char) : Option (String × String) :=
  match cs with
  | '-' :: '-' :: rest =>
    let ws := takeWhileSplit (fun c => c.isWhitespace) rest
    if ws.1 = [] then none
    else
      match dropLit ['t', 'y', 'p', 'e', ':'] ws.2 with
      | none => none
      | some r2 =>
        let w := takeWhileSplit isWordChar (takeWhileSplit (fun c => c.isWhitespace) r2).2
        if w.1 = [] then none
        else
          some (String.mk w.1,
                String.mk (takeWhileSplit (fun c => c.isWhitespace) w.2).2)
  | _ => none

def findTypeLine : List Char → Option (String × String)
  | [] => none
  | c :: t =>
    match matchTypeLineAt (c :: t) with
    | some r => some r
    | none => findTypeLine t

/-- The annotation line parse of mssql `_get_designation_type`: the first
match of the designation pattern in the line, as (designation, arguments). -/
def parseTypeLine (line : String) : Option (String × String) :=
  findTypeLine line.data

/-- One attempt of the bulk-insert argument pattern
`([a-zA-Z0-9_]+)\s+([a-zA-Z0-9_,]+)`. -/
def matchBulkAt (cs : List Char) : Option (String × String) :=
  let w1 := takeWhileSplit isWordChar cs
  if w1.1 = [] then none
  else
    let ws := takeWhileSplit (fun c => c.isWhitespace) w1.2
    if ws.1 = [] then none
    else
      let w2 := takeWhileSplit isColChar ws.2
      if w2.1 = [] then none
      else some (String.mk w1.1, String.mk w2.1)

def findBulkArgs : List Char → Option (String × String)
  | [] => none
  | c :: t =>
    match matchBulkAt (c :: t) with
    | some r => some r
    | none => findBulkArgs t

def parseBulkArgs (s : String) : Option (String × String) :=
  findBulkArgs s.data

/-- One attempt of the name pattern
`create\s+(procedure|function)\s+(?:(\w+)\.([a-zA-Z0-9_]+))`
(mssql `_get_name`): returns (routine type, schema, name). -/
def matchCreateAt (cs : List Char) : Option (String × String × String) :=
  match dropLit ['c', 'r', 'e', 'a', 't', 'e'] cs with
  | none => none
  | some r1 =>
    let ws1 := takeWhileSplit (fun c => c.isWhitespace) r1
    if ws1.1 = [] then none
    else
      let kind :=
        match dropLit ['p', 'r', 'o', 'c', 'e', 'd', 'u', 'r', 'e'] ws1.2 with
        | some r => some ("procedure", r)
        | none =>
          match dropLit ['f', 'u', 'n', 'c', 't', 'i', 'o', 'n'] ws1.2 with
          | some r => some ("function", r)
          | none => none
      match kind with
      | none => none
      | some (rtype, r2) =>
        let ws2 := takeWhileSplit (fun c => c.isWhitespace) r2
        if ws2.1 = [] then none
        else
          let schema := takeWhileSplit isWordChar ws2.2
          if schema.1 = [] then none
          else
            match schema.2 with
            | '.' :: r3 =>
              let nm := takeWhileSplit isWordChar r3
              if nm.1 = [] then none
              else some (rtype, String.mk schema.1, String.mk nm.1)
            | _ => none

def findCreate : List Char → Option (String × String × String)
  | [] => none
  | c :: t =>
    match matchCreateAt (c :: t) with
    | some r => some r
    | none => findCreate t

/-- The first word, the model of `re.findall('(\\w+)', s)` followed by
taking element 0 (mssql `get_bulk_insert_table_columns_info`). -/
def firstWordAux : List Char → Option String
  | [] => none
  | c :: t =>
    if isWordChar c then some (String.mk (c :: (takeWhileSplit isWordChar t).1))
    else firstWordAux t

def firstWordOf (s : String) : Option String :=
  firstWordAux s.data

/-! ## The substitution regex of `_load_routine_file`

In `_load_routine_file` each replace key is passed to `re.findall` as a
pattern with `re.IGNORECASE`.  The keys reaching that loop are placeholder
tokens over `[A-Za-z0-9_.@%]` and the four magic names, so the only regex
metacharacter that can occur in them is `.` (match any character); every
other character matches itself case-insensitively. -/

def regexLiteMatchAt : List Char → List Char → Option (List Char)
  | [], _ => some []
  | _ :: _, [] => none
  | p :: ps, c :: cs =>
    if p = '.' || p.toLower = c.toLower then
      match regexLiteMatchAt ps cs with
      | some m => some (c :: m)
      | none => none
    else none

/-- The text of the first match of the key pattern in the line
(`re.findall(search, new_line, re.IGNORECASE)` element 0). -/
def findFirstLite (pat : List Char) : List Char → Option (List Char)
  | [] => regexLiteMatchAt pat []
  | c :: t =>
    match regexLiteMatchAt pat (c :: t) with
    | some m => some m
    | none => findFirstLite pat t

/-! ## Path helpers (`os.path`, posix rules) -/

/-- `os.path.basename`: the part after the last slash. -/
def basenameP (p : String) : String :=
  String.mk ((((p.data.reverse).takeWhile (fun c => c ≠ '/'))).reverse)

/-- The root of `os.path.splitext` on a basename: drops the part from the
last dot on, unless every character before that dot is a dot. -/
def splitextRoot (b : String) : String :=
  let revAfter := b.data.reverse.takeWhile (fun c => c ≠ '.')
  if revAfter.length = b.data.length then b
  else
    let stem := b.data.take (b.data.length - revAfter.length - 1)
    if stem.all (fun c => c = '.') then b else String.mk stem

/-- `os.path.dirname` (posix): the part up to the last slash, with trailing
slashes stripped unless the head is all slashes. -/
def dirnameP (p : String) : String :=
  let revAfter := p.data.reverse.takeWhile (fun c => c ≠ '/')
  if revAfter.length = p.data.length then ""
  else
    let head := p.data.take (p.data.length - revAfter.length)
    if head ≠ [] ∧ ¬ head.all (fun c => c = '/') then
      String.mk (head.reverse.dropWhile (fun c => c = '/')).reverse
    else String.mk head

/-! ## Data model -/

/-- One entry of the parameter list built by
`_get_routine_parameters_info`. -/
structure Parameter where
  name : String
  data_type : String
  data_type_descriptor : String
deriving DecidableEq, Repr

/-- The routine metadata dict as written by mssql `_update_metadata`, which
overwrites all ten keys; prior-run metadata read back from the metadata file
has the same shape. -/
structure Metadata where
  schema_name : String
  routine_name : String
  designation : String
  table_name : Option String
  parameters : List Parameter
  columns : Option (List String)
  fields : Option (List String)
  column_types : Option (List String)
  timestamp : Int
  replace : List (String × String)
deriving DecidableEq, Repr

/-- The database-side introspection record (`_old_routine_info`); the loader
uses only its presence and its schema name (in `_drop_routine`). -/
structure RoutineInfo where
  schema_name : String
deriving DecidableEq, Repr

/-- One row of the parameter introspection query of
`_get_routine_parameters_info`. -/
structure DbParamRow where
  parameter_name : String
  type_name : String
deriving DecidableEq, Repr

/-- One row of the `describe` query of
`get_bulk_insert_table_columns_info`; the Python keys are Field and Type. -/
structure TableColumnRow where
  field : String
  col_type : String
deriving DecidableEq, Repr

/-- The result of mssql `_get_designation_type` on success. -/
structure Designation where
  designation_type : String
  table_name : Option String
  columns : Option (List String)
deriving DecidableEq, Repr

/-- The deterministic environment of one `load_stored_routine` call: the
filesystem facts the loader reads and the responses of the database
collaborator. -/
structure Env where
  source_filename : String
  file_exists : Bool
  is_file : Bool
  mtime : Int
  source_code : String
  real_path : String
  old_metadata : Option Metadata
  old_routine_info : Option RoutineInfo
  replace_pairs : List (String × String)
  db_parameters : List DbParamRow
deriving DecidableEq, Repr

/-- The trace of calls the loader makes on the database layer
(`StaticDataLayer`): the conditional drop, the install of the substituted
source, and the parameter introspection query. -/
inductive DbOp where
  | drop (schema routine : String)
  | install (source : String)
  | introspect (schema routine : String)
deriving DecidableEq, Repr

/-- The number of install operations in a trace. -/
def installCount (ops : List DbOp) : Nat :=
  (ops.filter (fun op => match op with | DbOp.install _ => true | _ => false)).length

/-! ## The change fingerprint: mssql `_must_reload` -/

/-- mssql `RoutineLoaderHelper._must_reload`.  The emptiness guard on the
stored replace map in the source is absorbed by `List.any` (an empty map has
no element to test). -/
def must_reload (old_metadata : Option Metadata) (m_time : Int)
    (replace_pairs : List (String × String)) (old_routine_info : Bool) : Bool :=
  match old_metadata with
  | none => true
  | some md =>
    if md.timestamp ≠ m_time then true
    else if md.replace.any (fun kv =>
        match dlookup replace_pairs (pyLower kv.1) with
        | none => true
        | some v => v ≠ kv.2) then true
    else if ¬ old_routine_info then true
    else false

/-! ## Placeholder extraction: `_get_placeholders` -/

/-- One step of the match loop of `_get_placeholders`: clears the success
flag on an unknown placeholder (never resetting it) and records the
placeholder if it is new, keeping first-occurrence order. -/
def collect_step (pairs : List (String × String)) (acc : Bool × List String)
    (tmp : String) : Bool × List String :=
  ((if (dlookup pairs (pyLower tmp)).isSome then acc.1 else false),
   (if tmp ∈ acc.2 then acc.2 else acc.2 ++ [tmp]))

/-- The match loop of `_get_placeholders`: threads the success flag and the
list of distinct placeholders in first-occurrence order. -/
def collect_placeholders (pairs : List (String × String)) (ms : List String) :
    Bool × List String :=
  ms.foldl (collect_step pairs) (true, [])

/-- One step of the commit loop of `_get_placeholders`: stores a
placeholder with its resolved value.  The none branch is unreachable when
the success flag is true (the Python code would raise KeyError there). -/
def commit_step (pairs : List (String × String)) (r : List (String × String))
    (p : String) : List (String × String) :=
  match dlookup pairs (pyLower p) with
  | some v => dinsert p v r
  | none => r

/-- The commit loop of `_get_placeholders`. -/
def commit_placeholders (pairs : List (String × String)) (phs : List String)
    (r : List (String × String)) : List (String × String) :=
  phs.foldl (commit_step pairs) r

/-- mssql `RoutineLoaderHelper._get_placeholders`, as a function of the
source text, the configured placeholder map and the current per-file replace
map: returns the success flag and the updated replace map (unchanged on
failure). -/
def get_placeholders (source : String) (pairs r₀ : List (String × String)) :
    Bool × List (String × String) :=
  let c := collect_placeholders pairs (findPlaceholders source)
  if c.1 then (true, commit_placeholders pairs c.2 r₀) else (false, r₀)

/-! ## Designation parsing: mssql `_get_designation_type` -/

/-- `lines[key - 1]` with Python index semantics: `key = 0` reads
`lines[-1]`, the last line. -/
def pyPrevLine (lines : List String) (k : Nat) : String :=
  if k = 0 then (lines.getLast?).getD "" else (lines[k - 1]?).getD ""

/-- mssql `RoutineLoaderHelper._get_designation_type`.  A missing `as` line
raises ValueError in Python (`list.index`), caught by the outer handler of
`load_stored_routine`; a bulk_insert annotation whose arguments do not match
the argument pattern raises IndexError likewise; both are modelled as
`none`, as is the explicit False return. -/
def get_designation_type (lines : List String) : Option Designation :=
  match lines.findIdx? (fun l => l = "as") with
  | none => none
  | some k =>
    match parseTypeLine (pyPrevLine lines k) with
    | none => none
    | some (d, args) =>
      if d = "bulk_insert" then
        match parseBulkArgs args with
        | none => none
        | some (tbl, cols) => some ⟨d, some tbl, some (pySplit ',' cols)⟩
      else if d = "rows_with_key" ∨ d = "rows_with_index" then
        some ⟨d, none, some (pySplit ',' args)⟩
      else if args = "" then some ⟨d, none, none⟩
      else none

/-! ## Name extraction: mssql `_get_name` -/

/-- mssql `RoutineLoaderHelper._get_name`: the first match of the create
pattern must name the routine after the source file.  Returns the routine
type (lower-cased) and the schema name on success. -/
def get_name (source : String) (routine_name : String) :
    Option (String × String) :=
  match findCreate source.data with
  | none => none
  | some (rtype, schema, nm) =>
    if routine_name ≠ nm then none else some (pyLower rtype, schema)

/-! ## Substitution and install: mssql `_load_routine_file` -/

/-- The value stored for the line magic constant: `"'%d'" % (i + 1)`. -/
def lineLit (n : Nat) : String :=
  "\x27" ++ toString n ++ "\x27"

/-- One line of the substitution loop: for each replace entry in map order,
find the first case-insensitive match of the key pattern in the line and
replace every occurrence of the matched text. -/
def substituteLine (replace : List (String × String)) (line : String) : String :=
  replace.foldl
    (fun ln kv =>
      match findFirstLite kv.1.data ln.data with
      | some m => pyReplace ln (String.mk m) kv.2
      | none => ln)
    line

/-- The line loop of `_load_routine_file`: updates the line magic constant
before substituting each line; returns the substituted lines and the final
replace map. -/
def substLoop (i : Nat) (r : List (String × String)) :
    List String → List String × List (String × String)
  | [] => ([], r)
  | ln :: rest =>
    let r' := dinsert "__LINE__" (lineLit (i + 1)) r
    let rec' := substLoop (i + 1) r' rest
    (substituteLine r' ln :: rec'.1, rec'.2)

/-- `_unset_magic_constants`: deletes the four magic keys, in source order
(file, routine, dir, line). -/
def unset_magic (r : List (String × String)) : List (String × String) :=
  derase "__LINE__" (derase "__DIR__" (derase "__ROUTINE__" (derase "__FILE__" r)))

/-- mssql `RoutineLoaderHelper._load_routine_file` together with
`_set_magic_constants`, `_unset_magic_constants` and `_drop_routine`:
returns the substituted source, the replace map after the magic constants
are removed, and the database operations performed (conditional drop, then
install). -/
def load_routine_file (real_path routine_name : String)
    (replace₀ : List (String × String)) (lines : List String)
    (old_routine_info : Option RoutineInfo) :
    String × List (String × String) × List DbOp :=
  let r1 := dinsert "__FILE__" ("\x27" ++ real_path ++ "\x27") replace₀
  let r2 := dinsert "__ROUTINE__" ("\x27" ++ routine_name ++ "\x27") r1
  let r3 := dinsert "__DIR__" ("\x27" ++ dirnameP real_path ++ "\x27") r2
  let lp := substLoop 0 r3 lines
  let src := String.intercalate "\n" lp.1
  let dropOps :=
    match old_routine_info with
    | some ri => [DbOp.drop ri.schema_name routine_name]
    | none => []
  (src, unset_magic lp.2, dropOps ++ [DbOp.install src])

/-! ## Parameter introspection: mssql `_get_routine_parameters_info` -/

/-- The row loop of `_get_routine_parameters_info`: a row with an empty
parameter name is skipped; otherwise the leading marker character is
stripped from the name. -/
def routine_parameters_of (rows : List DbParamRow) : List Parameter :=
  rows.foldl
    (fun acc r =>
      if r.parameter_name ≠ "" then
        acc ++ [⟨r.parameter_name.drop 1, r.type_name, r.type_name⟩]
      else acc)
    []

/-! ## Metadata update: mssql `_update_metadata` -/

/-- mssql `RoutineLoaderHelper._update_metadata`: overwrites every key of
the metadata dict, so the result does not depend on the prior entry. -/
def update_metadata (schema routine_name designation : String)
    (table_name : Option String) (parameters : List Parameter)
    (columns fields column_types : Option (List String)) (m_time : Int)
    (replace : List (String × String)) : Metadata :=
  ⟨schema, routine_name, designation, table_name, parameters, columns,
   fields, column_types, m_time, replace⟩

/-! ## The per-routine load: mssql `load_stored_routine` -/

/-- The reload branch of mssql `load_stored_routine` (taken when
`_must_reload` is true): placeholder extraction, designation parse and name
check each abort the routine with False and no database operation; then the
file is substituted and installed, the parameters introspected and the
metadata rebuilt.  The bulk-insert column cross-check
(`get_bulk_insert_table_columns_info`) is commented out at this point of the
mssql source and therefore absent here. -/
def load_reload (env : Env) (routine_name : String) :
    Option Metadata × List DbOp :=
  if (get_placeholders env.source_code env.replace_pairs []).1 then
    match get_designation_type (pySplit '\n' env.source_code) with
    | none => (none, [])
    | some dsg =>
      match get_name env.source_code routine_name with
      | none => (none, [])
      | some nm =>
        (some (update_metadata nm.2 routine_name dsg.designation_type
                 dsg.table_name (routine_parameters_of env.db_parameters)
                 dsg.columns none none env.mtime
                 (load_routine_file env.real_path routine_name
                   (get_placeholders env.source_code env.replace_pairs []).2
                   (pySplit '\n' env.source_code) env.old_routine_info).2.1),
         (load_routine_file env.real_path routine_name
           (get_placeholders env.source_code env.replace_pairs []).2
           (pySplit '\n' env.source_code) env.old_routine_info).2.2 ++
           [DbOp.introspect nm.2 routine_name])
  else (none, [])

/-- mssql `RoutineLoaderHelper.load_stored_routine`: the result value
(metadata dict on success, False modelled as none) together with the trace
of database operations.  A missing or non-regular source file raises inside
the try block and yields False with no operation; when `_must_reload` is
false the prior metadata is returned untouched. -/
def load_stored_routine (env : Env) : Option Metadata × List DbOp :=
  if env.file_exists = true then
    if env.is_file = true then
      if must_reload env.old_metadata env.mtime env.replace_pairs
          env.old_routine_info.isSome then
        load_reload env (splitextRoot (basenameP env.source_filename))
      else (env.old_metadata, [])
    else (none, [])
  else (none, [])

/-! ## Bulk insert cross-check: mssql `get_bulk_insert_table_columns_info` -/

/-- mssql `RoutineLoaderHelper.get_bulk_insert_table_columns_info`, as a
function of the `describe` rows returned by the database and the declared
column list: extracts the first word of each column type, then raises when
the number of described fields differs from the number of declared columns.
A type value without a word character raises IndexError in Python (element 0
of an empty findall), modelled as an error as well.  The temporary-table
bookkeeping around the external layer does not affect the result. -/
def get_bulk_insert_table_columns_info (columns : List TableColumnRow)
    (declared : List String) : Except String (List String × List String) := do
  let acc ← columns.foldlM
    (fun (acc : List String × List String × Nat) column =>
      match firstWordOf column.col_type with
      | some w => Except.ok (acc.1 ++ [w], acc.2.1 ++ [column.field], acc.2.2 + 1)
      | none => Except.error "IndexError: list index out of range")
    ([], [], 0)
  let n1 := acc.2.2
  let n2 := declared.length
  if n1 ≠ n2 then
    Except.error ("Number of fields " ++ toString n1 ++
      " and number of columns " ++ toString n2 ++ " don\x27t match.")
  else
    Except.ok (acc.1, acc.2.1)

/-! ## Wrapper code generator: mysql/wrapper/Wrapper.py -/

/-- The LOB type table of `is_lob_parameter`, in source order. -/
def lob_templates : List (String × Bool) :=
  [("tinytext", true), ("text", true), ("mediumtext", true),
   ("longtext", true), ("tinyblob", true), ("blob", true),
   ("mediumblob", true), ("longblob", true), ("tinyint", false),
   ("smallint", false), ("mediumint", false), ("int", false),
   ("bigint", false), ("year", false), ("decimal", false),
   ("float", false), ("double", false), ("time", false),
   ("timestamp", false), ("binary", false), ("enum", false),
   ("bit", false), ("set", false), ("char", false), ("varchar", false),
   ("date", false), ("datetime", false), ("varbinary", false)]

/-- `Wrapper.is_lob_parameter`: iterates over the whole parameter list,
assigning the table entry of each known type to the single flag (an unknown
type is logged and leaves the flag untouched), and returns the final flag
value. -/
def is_lob_parameter (parameters : List Parameter) : Bool :=
  parameters.foldl
    (fun has_blob p =>
      match dlookup lob_templates p.data_type with
      | some b => b
      | none => has_blob)
    false

/-- A Python value as passed for the `lob_as_string_flag` constructor
argument: the configuration hands a string through, but the annotation on
`__init__` says bool, so both are modelled. -/
inductive PyVal where
  | str (s : String)
  | bool (b : Bool)
deriving DecidableEq, Repr

/-- Python `==` on these values: values of different types are never
equal. -/
def pyEq : PyVal → PyVal → Bool
  | PyVal.str a, PyVal.str b => a = b
  | PyVal.bool a, PyVal.bool b => a = b
  | _, _ => false

/-- The flag assignment of `Wrapper.__init__`:
`self._lob_as_string_flag = lob_as_string_flag == 'True'`. -/
def wrapper_lob_as_string_flag (lob_as_string_flag : PyVal) : Bool :=
  pyEq lob_as_string_flag (PyVal.str "True")

/-- The three emission branches of `write_routine_method`: the
LOB-as-string branch (flag set, emits without LOB handling), the LOB-aware
branch and the plain branch. -/
inductive EmissionPath where
  | lobAsString
  | lobAware
  | plain
deriving DecidableEq, Repr

/-- The branch selection of `Wrapper.write_routine_method`, composed with
the constructor flag assignment. -/
def write_routine_method_path (lob_as_string_flag : PyVal)
    (parameters : List Parameter) : EmissionPath :=
  if wrapper_lob_as_string_flag lob_as_string_flag then EmissionPath.lobAsString
  else if is_lob_parameter parameters then EmissionPath.lobAware
  else EmissionPath.plain

/-- The format specifier table of `_get_parameter_format_specifier`, in
source order. -/
def format_templates : List (String × String) :=
  [("tinyint", "%d"), ("smallint", "%d"), ("mediumint", "%d"),
   ("int", "%d"), ("bigint", "%d"), ("year", "%d"), ("decimal", "%d"),
   ("float", "%d"), ("double", "%d"), ("varbinary", "%s"),
   ("binary", "%s"), ("char", "%s"), ("varchar", "%s"), ("time", "%s"),
   ("timestamp", "%s"), ("date", "%s"), ("datetime", "%s"),
   ("enum", "%s"), ("set", "%s"), ("bit", "%s"), ("tinytext", "%s"),
   ("text", "%s"), ("mediumtext", "%s"), ("longtext", "%s"),
   ("tinyblob", "%s"), ("blob", "%s"), ("mediumblob", "%s"),
   ("longblob", "%s")]

/-- `Wrapper._get_parameter_format_specifier`: a type outside the table
raises. -/
def get_parameter_format_specifier (data_type : String) :
    Except String String :=
  match dlookup format_templates data_type with
  | some ret => Except.ok ret
  | none => Except.error ("Unknown data type " ++ data_type ++ ".")

/-- One iteration of the parameter loop of `_generate_command`: appends the
parameter name and its format specifier (comma-separated once the
accumulator is non-empty), advances the loop counter i and the count l of
specifiers other than a question mark (no table entry is a question mark,
so l counts every parameter). -/
def call_list_step (acc : String × String × Nat × Nat) (parameter : Parameter) :
    Except String (String × String × Nat × Nat) := do
  let re_type ← get_parameter_format_specifier parameter.data_type
  let parameters := if acc.1 ≠ "" then acc.1 ++ ", " else acc.1
  let placeholders := if acc.1 ≠ "" then acc.2.1 ++ ", " else acc.2.1
  Except.ok (parameters ++ parameter.name, placeholders ++ re_type,
             acc.2.2.1 + 1,
             if re_type ≠ "?" then acc.2.2.2 + 1 else acc.2.2.2)

/-- The parameter loop of `_generate_command`. -/
def build_call_lists (ps : List Parameter) :
    Except String (String × String × Nat × Nat) :=
  ps.foldlM call_list_step ("", "", 0, 0)

/-- `Wrapper._generate_command`: the generated Python call line.  In the
source l is a non-negative counter with branches for 0, 1, more than 1 and
an unreachable raise for a negative value; over Nat the last branch has no
counterpart. -/
def generate_command (routine : Metadata) : Except String String := do
  let execute := if routine.designation = "function" then "select" else "call"
  let acc ← build_call_lists routine.parameters
  let l := acc.2.2.2
  if l = 0 then
    Except.ok ("\"" ++ execute ++ " " ++ routine.routine_name ++ "()\"")
  else if l = 1 then
    Except.ok ("\"" ++ execute ++ " " ++ routine.routine_name ++ "(" ++
      acc.2.1 ++ ")\" % " ++ acc.1)
  else
    Except.ok ("\"" ++ execute ++ " " ++ routine.routine_name ++ "(" ++
      acc.2.1 ++ ")\" % (" ++ acc.1 ++ ")")

/-! ## Command entry points -/

/-- `WrapperCommand.create_routine_wrapper_generator`: an RDBMS tag outside
the three supported ones raises. -/
def create_routine_wrapper_generator (rdbms : String) : Except String Unit :=
  if rdbms = "mysql" then Except.ok ()
  else if rdbms = "mssql" then Except.ok ()
  else if rdbms = "pgsql" then Except.ok ()
  else Except.error ("Unknown RDBMS " ++ rdbms ++ ".")

/-- `WrapperCommand.run_command`: lower-cases the configured RDBMS tag,
builds the generator, runs it and returns the literal 0.  The result of the
delegated `wrapper.main` call is discarded by the source, so it is modelled
by the ignored `routine_failures` count (the number of routine-scoped
failures the generator reported). -/
def run_command (rdbms_config : String) (routine_failures : Nat) :
    Except String Int :=
  match create_routine_wrapper_generator (pyLower rdbms_config) with
  | Except.error e => Except.error e
  | Except.ok _ =>
    let _ := routine_failures
    Except.ok 0

/-- `Constants.main`: whether the constants flow is enabled or not, the
method ends with `return 0`. -/
def constants_main (constants_filename : Option String) : Int :=
  let _ := constants_filename
  0

/-- Decidable success test for Except. -/
def exceptOk {ε α : Type} : Except ε α → Bool
  | Except.ok _ => true
  | Except.error _ => false

/-! ## Concrete environments used as witnesses -/

/-- A plain procedure file with no placeholders, loaded for the first
time. -/
def env_c2 : Env :=
  { source_filename := "routines/add_user.sql"
    file_exists := true
    is_file := true
    mtime := 7
    source_code :=
      "create procedure dbo.add_user\n-- type: procedure\nas\nselect 1"
    real_path := "/work/routines/add_user.sql"
    old_metadata := none
    old_routine_info := none
    replace_pairs := []
    db_parameters := [] }

/-- A procedure file with one resolvable placeholder, loaded for the first
time. -/
def env_c8 : Env :=
  { source_filename := "db/magic.sql"
    file_exists := true
    is_file := true
    mtime := 100
    source_code :=
      "create procedure dbo.magic\n-- type: procedure\nas\nselect @foo@"
    real_path := "/work/db/magic.sql"
    old_metadata := none
    old_routine_info := none
    replace_pairs := [("@foo@", "42")]
    db_parameters := [⟨"@p_x", "int"⟩] }

/-- A bulk-insert routine declaring three columns, loaded against a table
the database describes with four columns. -/
def env_c9 : Env :=
  { source_filename := "r/blk.sql"
    file_exists := true
    is_file := true
    mtime := 5
    source_code :=
      "create procedure dbo.blk\n-- type: bulk_insert mytable a,b,c\nas\nselect 1"
    real_path := "/work/r/blk.sql"
    old_metadata := none
    old_routine_info := none
    replace_pairs := []
    db_parameters := [] }

/-- The four-column `describe` result of the bulk-insert target table of
`env_c9`. -/
def cols_c9 : List TableColumnRow :=
  [⟨"a", "int(11)"⟩, ⟨"b", "int(11)"⟩, ⟨"c", "varchar(10)"⟩, ⟨"d", "int(11)"⟩]

/-- The environment of a second run on an unchanged file: the metadata of
the first run has become the prior metadata and the installed routine now
has a database introspection record. -/
def with_prior (env : Env) (md : Metadata) (ri : RoutineInfo) : Env :=
  { env with old_metadata := some md, old_routine_info := some ri }

/-- The metadata the first load of `env_c2` produces. -/
def md_c2 : Metadata :=
  ⟨"dbo", "add_user", "procedure", none, [], none, none, none, 7, []⟩

/-- The operation trace of the first load of `env_c2`. -/
def ops_c2 : List DbOp :=
  [DbOp.install "create procedure dbo.add_user\n-- type: procedure\nas\nselect 1",
   DbOp.introspect "dbo" "add_user"]

/-- The metadata the load of `env_c8` produces. -/
def md_c8 : Metadata :=
  ⟨"dbo", "magic", "procedure", none, [⟨"p_x", "int", "int"⟩], none, none,
   none, 100, [("@foo@", "42")]⟩

/-- The metadata the load of `env_c9` produces despite the column-count
mismatch. -/
def md_c9 : Metadata :=
  ⟨"dbo", "blk", "bulk_insert", some "mytable", [], some ["a", "b", "c"],
   none, none, 5, []⟩

/-- The parameter list int-then-varchar of the wrapper generation example. -/
def params_c7 : List Parameter :=
  [⟨"p_count", "int", "int"⟩, ⟨"p_name", "varchar", "varchar"⟩]

/-- A routine with an int parameter followed by a varchar parameter. -/
def routine_c7 : Metadata :=
  ⟨"dbo", "foo", "procedure", none, params_c7, none, none, none, 0, []⟩

/-- First-occurrence deduplication, the specification of the placeholder
list built by the match loop. -/
def dedupFirst (ms : List String) : List String :=
  ms.foldl (fun l tmp => if tmp ∈ l then l else l ++ [tmp]) []

/-- The four magic placeholder keys of `_set_magic_constants` and the line
loop. -/
def magic_keys : List String :=
  ["__FILE__", "__ROUTINE__", "__DIR__", "__LINE__"]

/-- Comma-space join, the shape of the argument and placeholder strings
accumulated by `_generate_command`. -/
def joinComma : List String → String
  | [] => ""
  | [x] => x
  | x :: y :: t => x ++ ", " ++ joinComma (y :: t)

/-- Join with a leading separator before every element, the shape of a
non-empty accumulator extended by the remaining elements. -/
def prefJoin (sep : String) : List String → String
  | [] => ""
  | x :: t => sep ++ x ++ prefJoin sep t

/-- The numeric MySQL types, following the specification wording: numeric
types map to the numeric placeholder, every other (text, binary, temporal)
type to the string placeholder.  This definition follows the specification
text and is compared with the source table `format_templates`. -/
def numeric_types_spec : List String :=
  ["tinyint", "smallint", "mediumint", "int", "bigint", "year", "decimal",
   "float", "double"]

/-- The specification-side placeholder choice for one parameter type. -/
def spec_placeholder (t : String) : String :=
  if t ∈ numeric_types_spec then "%d" else "%s"

/-! ## Lemmas about the dict model -/

theorem mem_dinsert {α : Type} {kv : String × α} {k : String} {v : α}
    {m : List (String × α)} : kv ∈ dinsert k v m → kv = (k, v) ∨ kv ∈ m := by
  induction m with
  | nil => intro h; simpa [dinsert] using h
  | cons hd t ih =>
    obtain ⟨a, b⟩ := hd
    intro h
    by_cases hk : a = k
    · rw [dinsert, if_pos hk] at h
      rcases List.mem_cons.mp h with h1 | h1
      · exact Or.inl h1
      · exact Or.inr (List.mem_cons_of_mem _ h1)
    · rw [dinsert, if_neg hk] at h
      rcases List.mem_cons.mp h with h1 | h1
      · exact Or.inr (by simp [h1])
      · rcases ih h1 with h2 | h2
        · exact Or.inl h2
        · exact Or.inr (List.mem_cons_of_mem _ h2)

theorem dlookup_dinsert_ne {α : Type} {k k' : String} (v : α)
    (m : List (String × α)) (h : k ≠ k') :
    dlookup (dinsert k' v m) k = dlookup m k := by
  have hne : ¬ k' = k := fun hh => h hh.symm
  induction m with
  | nil => simp [dinsert, dlookup, hne]
  | cons hd t ih =>
    obtain ⟨a, b⟩ := hd
    by_cases hk : a = k'
    · simp [dinsert, dlookup, hk, hne]
    · by_cases hq : a = k
      · simp [dinsert, dlookup, hk, hq, h]
      · simp [dinsert, dlookup, hk, hq, ih]

theorem derase_dinsert_ne {α : Type} {k k' : String} (v : α)
    (m : List (String × α)) (h : k ≠ k') :
    derase k (dinsert k' v m) = dinsert k' v (derase k m) := by
  have hne : ¬ k' = k := fun hh => h hh.symm
  induction m with
  | nil => simp [dinsert, derase, hne]
  | cons hd t ih =>
    obtain ⟨a, b⟩ := hd
    by_cases hk : a = k'
    · simp [dinsert, derase, hk, hne]
    · by_cases hq : a = k
      · simp [dinsert, derase, hk, hq, h]
      · simp [dinsert, derase, hk, hq, ih]

theorem derase_dinsert_self {α : Type} {k : String} (v : α)
    {m : List (String × α)} : dlookup m k = none →
    derase k (dinsert k v m) = m := by
  induction m with
  | nil => intro _; simp [dinsert, derase]
  | cons hd t ih =>
    obtain ⟨a, b⟩ := hd
    intro h
    by_cases hq : a = k
    · rw [dlookup, if_pos hq] at h; exact absurd h (by simp)
    · rw [dlookup, if_neg hq] at h
      rw [dinsert, if_neg hq, derase, if_neg hq, ih h]

theorem derase_of_none {α : Type} {k : String}
    {m : List (String × α)} : dlookup m k = none → derase k m = m := by
  induction m with
  | nil => intro _; rfl
  | cons hd t ih =>
    obtain ⟨a, b⟩ := hd
    intro h
    by_cases hq : a = k
    · rw [dlookup, if_pos hq] at h; exact absurd h (by simp)
    · rw [dlookup, if_neg hq] at h
      rw [derase, if_neg hq, ih h]

theorem dlookup_none_of {α : Type} {k : String} {m : List (String × α)}
    (h : ∀ kv ∈ m, kv.1 ≠ k) : dlookup m k = none := by
  induction m with
  | nil => rfl
  | cons hd t ih =>
    obtain ⟨a, b⟩ := hd
    have ha : ¬ a = k := h (a, b) (List.mem_cons_self _ _)
    rw [dlookup, if_neg ha]
    exact ih (fun kv hkv => h kv (List.mem_cons_of_mem _ hkv))

theorem dinsert_dinsert {α : Type} (k : String) (v w : α)
    (m : List (String × α)) :
    dinsert k v (dinsert k w m) = dinsert k v m := by
  induction m with
  | nil => simp [dinsert]
  | cons hd t ih =>
    obtain ⟨a, b⟩ := hd
    by_cases hq : a = k
    · rw [dinsert, if_pos hq, dinsert, if_pos rfl, dinsert, if_pos hq]
    · rw [dinsert, if_neg hq, dinsert, if_neg hq, dinsert, if_neg hq, ih]

theorem dinsert_append_fresh {α : Type} {k : String} (v : α)
    {m : List (String × α)} : dlookup m k = none →
    dinsert k v m = m ++ [(k, v)] := by
  induction m with
  | nil => intro _; rfl
  | cons hd t ih =>
    obtain ⟨a, b⟩ := hd
    intro h
    by_cases hq : a = k
    · rw [dlookup, if_pos hq] at h; exact absurd h (by simp)
    · rw [dlookup, if_neg hq] at h
      rw [dinsert, if_neg hq, ih h]; rfl

theorem dlookup_append_left_none {α : Type} {k : String}
    {m1 : List (String × α)} (m2 : List (String × α))
    (h : dlookup m1 k = none) : dlookup (m1 ++ m2) k = dlookup m2 k := by
  induction m1 with
  | nil => rfl
  | cons hd t ih =>
    obtain ⟨a, b⟩ := hd
    by_cases hq : a = k
    · rw [dlookup, if_pos hq] at h; exact absurd h (by simp)
    · rw [dlookup, if_neg hq] at h
      rw [List.cons_append, dlookup, if_neg hq, ih h]

/-! ## Lemmas about the substitution loop and the magic constants -/

theorem substLoop_snd (ls : List String) :
    ∀ (i : Nat) (r : List (String × String)), ls ≠ [] →
    (substLoop i r ls).2 = dinsert "__LINE__" (lineLit (i + ls.length)) r := by
  induction ls with
  | nil => intro i r h; exact absurd rfl h
  | cons a t ih =>
    intro i r _
    cases t with
    | nil => simp [substLoop]
    | cons b t2 =>
      have hlen : i + 1 + (b :: t2).length = i + (a :: b :: t2).length := by
        simp [List.length_cons]; omega
      show (substLoop (i + 1) (dinsert "__LINE__" (lineLit (i + 1)) r) (b :: t2)).2 = _
      rw [ih (i + 1) _ (by simp), dinsert_dinsert, hlen]

theorem unset_magic_three (r : List (String × String))
    (hF : dlookup r "__FILE__" = none) (hR : dlookup r "__ROUTINE__" = none)
    (hD : dlookup r "__DIR__" = none) (hL : dlookup r "__LINE__" = none)
    (vf vr vd : String) :
    unset_magic (dinsert "__DIR__" vd (dinsert "__ROUTINE__" vr
      (dinsert "__FILE__" vf r))) = r := by
  have hFD : ("__FILE__" : String) ≠ "__DIR__" := by decide
  have hFR : ("__FILE__" : String) ≠ "__ROUTINE__" := by decide
  have hRD : ("__ROUTINE__" : String) ≠ "__DIR__" := by decide
  unfold unset_magic
  rw [derase_dinsert_ne vd _ hFD, derase_dinsert_ne vr _ hFR,
      derase_dinsert_self vf hF, derase_dinsert_ne vd _ hRD,
      derase_dinsert_self vr hR, derase_dinsert_self vd hD,
      derase_of_none hL]

theorem unset_magic_four (r : List (String × String))
    (hF : dlookup r "__FILE__" = none) (hR : dlookup r "__ROUTINE__" = none)
    (hD : dlookup r "__DIR__" = none) (hL : dlookup r "__LINE__" = none)
    (vf vr vd vl : String) :
    unset_magic (dinsert "__LINE__" vl (dinsert "__DIR__" vd
      (dinsert "__ROUTINE__" vr (dinsert "__FILE__" vf r)))) = r := by
  have hFL : ("__FILE__" : String) ≠ "__LINE__" := by decide
  have hFD : ("__FILE__" : String) ≠ "__DIR__" := by decide
  have hFR : ("__FILE__" : String) ≠ "__ROUTINE__" := by decide
  have hRL : ("__ROUTINE__" : String) ≠ "__LINE__" := by decide
  have hRD : ("__ROUTINE__" : String) ≠ "__DIR__" := by decide
  have hDL : ("__DIR__" : String) ≠ "__LINE__" := by decide
  unfold unset_magic
  rw [derase_dinsert_ne vl _ hFL, derase_dinsert_ne vd _ hFD,
      derase_dinsert_ne vr _ hFR, derase_dinsert_self vf hF,
      derase_dinsert_ne vl _ hRL, derase_dinsert_ne vd _ hRD,
      derase_dinsert_self vr hR, derase_dinsert_ne vl _ hDL,
      derase_dinsert_self vd hD, derase_dinsert_self vl hL]

/-- The replace map coming out of `_load_routine_file` equals the map going
in whenever the incoming map holds none of the magic keys: the magic
constants are set, used and fully unset within the call. -/
theorem load_routine_file_replace (rp rn : String)
    (r : List (String × String)) (lines : List String)
    (ori : Option RoutineInfo)
    (hF : dlookup r "__FILE__" = none) (hR : dlookup r "__ROUTINE__" = none)
    (hD : dlookup r "__DIR__" = none) (hL : dlookup r "__LINE__" = none) :
    (load_routine_file rp rn r lines ori).2.1 = r := by
  show unset_magic ((substLoop 0 (dinsert "__DIR__" _ (dinsert "__ROUTINE__" _
    (dinsert "__FILE__" _ r))) lines).2) = r
  cases lines with
  | nil =>
    show unset_magic (dinsert "__DIR__" _ (dinsert "__ROUTINE__" _
      (dinsert "__FILE__" _ r))) = r
    exact unset_magic_three r hF hR hD hL _ _ _
  | cons a t =>
    rw [substLoop_snd _ _ _ (by simp)]
    exact unset_magic_four r hF hR hD hL _ _ _ _

/-- `_load_routine_file` performs exactly one install operation. -/
theorem load_routine_file_installCount (rp rn : String)
    (r : List (String × String)) (lines : List String)
    (ori : Option RoutineInfo) :
    installCount (load_routine_file rp rn r lines ori).2.2 = 1 := by
  cases ori with
  | none => simp [load_routine_file, installCount]
  | some ri => simp [load_routine_file, installCount]

/-! ## Lemmas about placeholder scanning and extraction -/

theorem matchPlaceholderAt_head {cs : List Char} {p : List Char × List Char}
    (h : matchPlaceholderAt cs = some p) : p.1.head? = some '@' := by
  rw [matchPlaceholderAt.eq_def] at h
  split at h
  · split at h
    · exact absurd h (by simp)
    · split at h
      · injection h with h1; subst h1; rfl
      · split at h
        · injection h with h1; subst h1; rfl
        · exact absurd h (by simp)
  · exact absurd h (by simp)

theorem findPlaceholdersAux_head (fuel : Nat) :
    ∀ (cs : List Char) (m : String), m ∈ findPlaceholdersAux fuel cs →
    m.data.head? = some '@' := by
  induction fuel with
  | zero => intro cs m hm; exact absurd hm (by simp [findPlaceholdersAux])
  | succ fuel ih =>
    intro cs m hm
    cases cs with
    | nil => exact absurd hm (by simp [findPlaceholdersAux])
    | cons c t =>
      rcases hmp : matchPlaceholderAt (c :: t) with _ | ⟨mm, rest⟩
      · rw [findPlaceholdersAux, hmp] at hm
        exact ih t m hm
      · rw [findPlaceholdersAux, hmp] at hm
        rcases List.mem_cons.mp hm with h1 | h1
        · subst h1
          exact matchPlaceholderAt_head hmp
        · exact ih rest m h1

theorem findPlaceholders_head {source : String} {m : String}
    (hm : m ∈ findPlaceholders source) : m.data.head? = some '@' :=
  findPlaceholdersAux_head _ _ _ hm

/-- A string starting with the placeholder marker is none of the magic
keys. -/
theorem ne_magic_of_head {s : String} (h : s.data.head? = some '@') :
    ∀ k ∈ magic_keys, s ≠ k := by
  intro k hk
  rcases (by simpa [magic_keys] using hk :
      k = "__FILE__" ∨ k = "__ROUTINE__" ∨ k = "__DIR__" ∨ k = "__LINE__")
    with rfl | rfl | rfl | rfl <;>
    · intro hs; subst hs; exact absurd h (by decide)

theorem collect_foldl_snd (pairs : List (String × String))
    (ms : List String) :
    ∀ (acc : Bool × List String),
    (ms.foldl (collect_step pairs) acc).2 =
      ms.foldl (fun l tmp => if tmp ∈ l then l else l ++ [tmp]) acc.2 := by
  induction ms with
  | nil => intro acc; rfl
  | cons a t ih =>
    intro acc
    rw [List.foldl_cons, List.foldl_cons, ih]
    rfl

theorem collect_snd (pairs : List (String × String)) (ms : List String) :
    (collect_placeholders pairs ms).2 = dedupFirst ms :=
  collect_foldl_snd pairs ms (true, [])

theorem collect_foldl_fst (pairs : List (String × String))
    (ms : List String) :
    ∀ (acc : Bool × List String),
    (ms.foldl (collect_step pairs) acc).1 =
      (acc.1 && ms.all (fun m => (dlookup pairs (pyLower m)).isSome)) := by
  induction ms with
  | nil => intro acc; simp
  | cons a t ih =>
    intro acc
    rw [List.foldl_cons, ih]
    rcases hda : (dlookup pairs (pyLower a)).isSome with _ | _
    · simp [collect_step, hda]
    · simp [collect_step, hda]

theorem collect_fst (pairs : List (String × String)) (ms : List String) :
    (collect_placeholders pairs ms).1 =
      ms.all (fun m => (dlookup pairs (pyLower m)).isSome) := by
  rw [collect_placeholders, collect_foldl_fst]
  simp

theorem dedupFirst_foldl_mem (ms : List String) :
    ∀ (l : List String) (x : String),
    x ∈ ms.foldl (fun l tmp => if tmp ∈ l then l else l ++ [tmp]) l →
    x ∈ l ∨ x ∈ ms := by
  induction ms with
  | nil => intro l x h; exact Or.inl h
  | cons a t ih =>
    intro l x h
    rw [List.foldl_cons] at h
    rcases ih _ x h with h1 | h1
    · by_cases ha : a ∈ l
      · rw [if_pos ha] at h1; exact Or.inl h1
      · rw [if_neg ha] at h1
        rcases List.mem_append.mp h1 with h2 | h2
        · exact Or.inl h2
        · simp at h2; subst h2; exact Or.inr (List.mem_cons_self _ _)
    · exact Or.inr (List.mem_cons_of_mem _ h1)

theorem mem_dedupFirst {ms : List String} {x : String}
    (h : x ∈ dedupFirst ms) : x ∈ ms := by
  rcases dedupFirst_foldl_mem ms [] x h with h1 | h1
  · exact absurd h1 (by simp)
  · exact h1

theorem dedupFirst_foldl_nodup (ms : List String) :
    ∀ (l : List String), l.Nodup →
    (ms.foldl (fun l tmp => if tmp ∈ l then l else l ++ [tmp]) l).Nodup := by
  induction ms with
  | nil => intro l h; exact h
  | cons a t ih =>
    intro l h
    rw [List.foldl_cons]
    by_cases ha : a ∈ l
    · rw [if_pos ha]; exact ih l h
    · rw [if_neg ha]
      exact ih _ ((List.nodup_append_comm.mp (by simpa using h.cons ha)))

theorem dedupFirst_nodup (ms : List String) : (dedupFirst ms).Nodup :=
  dedupFirst_foldl_nodup ms [] List.nodup_nil

theorem mem_commit {pairs : List (String × String)} (phs : List String) :
    ∀ (r₀ : List (String × String)) (kv : String × String),
    kv ∈ commit_placeholders pairs phs r₀ →
    kv ∈ r₀ ∨ (kv.1 ∈ phs ∧ dlookup pairs (pyLower kv.1) = some kv.2) := by
  induction phs with
  | nil => intro r₀ kv h; exact Or.inl h
  | cons p t ih =>
    intro r₀ kv h
    rw [commit_placeholders, List.foldl_cons] at h
    rcases ih _ kv h with h1 | h1
    · rw [commit_step] at h1
      rcases hdp : dlookup pairs (pyLower p) with _ | v
      · rw [hdp] at h1; exact Or.inl h1
      · rw [hdp] at h1
        rcases mem_dinsert h1 with h2 | h2
        · subst h2
          exact Or.inr ⟨List.mem_cons_self _ _, hdp⟩
        · exact Or.inl h2
    · exact Or.inr ⟨List.mem_cons_of_mem _ h1.1, h1.2⟩

theorem commit_eq_filterMap {pairs : List (String × String)}
    (phs : List String) :
    ∀ (r₀ : List (String × String)), phs.Nodup →
    (∀ p ∈ phs, dlookup r₀ p = none) →
    commit_placeholders pairs phs r₀ =
      r₀ ++ phs.filterMap
        (fun p => (dlookup pairs (pyLower p)).map (fun v => (p, v))) := by
  induction phs with
  | nil => intro r₀ _ _; simp [commit_placeholders]
  | cons p t ih =>
    intro r₀ hnd hfresh
    rw [commit_placeholders, List.foldl_cons]
    rcases hdp : dlookup pairs (pyLower p) with _ | v
    · rw [show commit_step pairs r₀ p = r₀ by rw [commit_step, hdp]]
      have hrec := ih r₀ (List.nodup_cons.mp hnd).2
        (fun q hq => hfresh q (List.mem_cons_of_mem _ hq))
      rw [commit_placeholders] at hrec
      rw [hrec]
      simp [List.filterMap_cons, hdp]
    · rw [show commit_step pairs r₀ p = dinsert p v r₀ by rw [commit_step, hdp]]
      rw [dinsert_append_fresh v (hfresh p (List.mem_cons_self _ _))]
      have hfresh2 : ∀ q ∈ t, dlookup (r₀ ++ [(p, v)]) q = none := by
        intro q hq
        have hqp : ¬ p = q := fun hh =>
          (List.nodup_cons.mp hnd).1 (hh ▸ hq)
        rw [dlookup_append_left_none _
          (hfresh q (List.mem_cons_of_mem _ hq))]
        simp [dlookup, hqp]
      have hrec := ih (r₀ ++ [(p, v)]) (List.nodup_cons.mp hnd).2 hfresh2
      rw [commit_placeholders] at hrec
      rw [hrec]
      simp [List.filterMap_cons, hdp]

/-! ## Lemmas about `_get_placeholders` as a whole -/

theorem all_isSome_false_iff (pairs : List (String × String))
    (ms : List String) :
    (ms.all (fun m => (dlookup pairs (pyLower m)).isSome) = false) ↔
      ∃ m ∈ ms, dlookup pairs (pyLower m) = none := by
  induction ms with
  | nil => simp
  | cons a t ih =>
    rcases h : dlookup pairs (pyLower a) with _ | v
    · simp only [List.all_cons, h, Option.isSome_none, Bool.false_and]
      constructor
      · intro _; exact ⟨a, List.mem_cons_self _ _, h⟩
      · intro _; trivial
    · simp only [List.all_cons, h, Option.isSome_some, Bool.true_and]
      rw [ih]
      constructor
      · intro ⟨m, hm, hmn⟩; exact ⟨m, List.mem_cons_of_mem _ hm, hmn⟩
      · intro ⟨m, hm, hmn⟩
        rcases List.mem_cons.mp hm with h1 | h1
        · subst h1; rw [h] at hmn; exact absurd hmn (by simp)
        · exact ⟨m, h1, hmn⟩

theorem get_placeholders_fst (s : String) (pairs r₀ : List (String × String)) :
    (get_placeholders s pairs r₀).1 =
      (findPlaceholders s).all (fun m => (dlookup pairs (pyLower m)).isSome) := by
  rw [get_placeholders, ← collect_fst pairs (findPlaceholders s)]
  rcases h : (collect_placeholders pairs (findPlaceholders s)).1 with _ | _ <;>
    simp [h]

theorem get_placeholders_false_iff (s : String)
    (pairs r₀ : List (String × String)) :
    (get_placeholders s pairs r₀).1 = false ↔
      ∃ m ∈ findPlaceholders s, dlookup pairs (pyLower m) = none := by
  rw [get_placeholders_fst, all_isSome_false_iff]

theorem get_placeholders_snd_false (s : String)
    (pairs r₀ : List (String × String))
    (h : (get_placeholders s pairs r₀).1 = false) :
    (get_placeholders s pairs r₀).2 = r₀ := by
  rw [get_placeholders] at h ⊢
  rcases hc : (collect_placeholders pairs (findPlaceholders s)).1 with _ | _
  · simp [hc]
  · rw [hc] at h; simp at h

theorem get_placeholders_snd_true (s : String)
    (pairs r₀ : List (String × String))
    (h : (get_placeholders s pairs r₀).1 = true) :
    (get_placeholders s pairs r₀).2 =
      commit_placeholders pairs (dedupFirst (findPlaceholders s)) r₀ := by
  rw [get_placeholders] at h ⊢
  rcases hc : (collect_placeholders pairs (findPlaceholders s)).1 with _ | _
  · rw [hc] at h; simp at h
  · rw [collect_snd]
    simp

theorem get_placeholders_mem {s : String} {pairs : List (String × String)}
    {kv : String × String} (h : kv ∈ (get_placeholders s pairs []).2) :
    kv.1 ∈ findPlaceholders s ∧ dlookup pairs (pyLower kv.1) = some kv.2 := by
  rcases hc : (get_placeholders s pairs []).1 with _ | _
  · rw [get_placeholders_snd_false s pairs [] hc] at h
    exact absurd h (by simp)
  · rw [get_placeholders_snd_true s pairs [] hc] at h
    rcases mem_commit _ _ kv h with h1 | h1
    · exact absurd h1 (by simp)
    · exact ⟨mem_dedupFirst h1.1, h1.2⟩

/-- The per-file replace map built by `_get_placeholders` never holds a
magic key: all of its keys are placeholder tokens starting with the
marker. -/
theorem get_placeholders_fresh_magic (s : String)
    (pairs : List (String × String)) :
    ∀ k ∈ magic_keys, dlookup (get_placeholders s pairs []).2 k = none := by
  intro k hk
  apply dlookup_none_of
  intro kv hkv
  exact ne_magic_of_head (findPlaceholders_head (get_placeholders_mem hkv).1) k hk

/-! ## Lemmas about the fingerprint and the reload path -/

theorem must_reload_false_of (md : Metadata) (mt : Int)
    (pairs : List (String × String)) (ht : md.timestamp = mt)
    (hr : ∀ kv ∈ md.replace, dlookup pairs (pyLower kv.1) = some kv.2) :
    must_reload (some md) mt pairs true = false := by
  have hany : md.replace.any (fun kv =>
      match dlookup pairs (pyLower kv.1) with
      | none => true
      | some v => decide (v ≠ kv.2)) = false := by
    rw [List.any_eq_false]
    intro kv hkv
    rw [hr kv hkv]
    simp
  rw [must_reload, if_neg (by simp [ht]), hany]
  simp

theorem installCount_append (xs ys : List DbOp) :
    installCount (xs ++ ys) = installCount xs + installCount ys := by
  simp [installCount, List.filter_append]

theorem load_reload_shape {env : Env} {rn : String} {md : Metadata}
    {ops : List DbOp} (h : load_reload env rn = (some md, ops)) :
    md.replace = (load_routine_file env.real_path rn
      (get_placeholders env.source_code env.replace_pairs []).2
      (pySplit '\n' env.source_code) env.old_routine_info).2.1 ∧
    md.timestamp = env.mtime ∧ installCount ops = 1 := by
  rw [load_reload] at h
  split at h
  · split at h
    · exact absurd h (by simp)
    · split at h
      · exact absurd h (by simp)
      · rw [Prod.mk.injEq] at h
        obtain ⟨h1, h2⟩ := h
        injection h1 with h3
        subst h3
        refine ⟨rfl, rfl, ?_⟩
        rw [← h2, installCount_append, load_routine_file_installCount]
        rfl
  · exact absurd h (by simp)

/-- On the reload path, the replace map persisted into the metadata is
exactly the map `_get_placeholders` committed: every entry resolves in the
configured placeholder map, and no magic key survives. -/
theorem load_reload_replace {env : Env} {rn : String} {md : Metadata}
    {ops : List DbOp} (h : load_reload env rn = (some md, ops)) :
    md.replace = (get_placeholders env.source_code env.replace_pairs []).2 := by
  rcases load_reload_shape h with ⟨h1, _, _⟩
  rw [h1]
  have hm := get_placeholders_fresh_magic env.source_code env.replace_pairs
  exact load_routine_file_replace _ _ _ _ _
    (hm "__FILE__" (by simp [magic_keys]))
    (hm "__ROUTINE__" (by simp [magic_keys]))
    (hm "__DIR__" (by simp [magic_keys]))
    (hm "__LINE__" (by simp [magic_keys]))

/-! ## Helper lemmas for the fingerprint characterization -/

theorem replace_any_iff (pairs : List (String × String))
    (l : List (String × String)) :
    (l.any (fun kv =>
      match dlookup pairs (pyLower kv.1) with
      | none => true
      | some v => decide (v ≠ kv.2)) = true) ↔
    ∃ kv ∈ l, dlookup pairs (pyLower kv.1) ≠ some kv.2 := by
  rw [List.any_eq_true]
  constructor
  · rintro ⟨kv, hkv, hp⟩
    refine ⟨kv, hkv, ?_⟩
    rcases hdl : dlookup pairs (pyLower kv.1) with _ | v
    · simp
    · rw [hdl] at hp
      simp only [decide_eq_true_eq] at hp
      simp [hp]
  · rintro ⟨kv, hkv, hp⟩
    refine ⟨kv, hkv, ?_⟩
    rcases hdl : dlookup pairs (pyLower kv.1) with _ | v
    · simp
    · rw [hdl] at hp
      simp only [ne_eq, Option.some.injEq] at hp
      simp [hp]

theorem must_reload_some_eq (md : Metadata) (mt : Int)
    (pairs : List (String × String)) (ori : Bool) :
    must_reload (some md) mt pairs ori =
      (decide (md.timestamp ≠ mt) ||
       md.replace.any (fun kv =>
         match dlookup pairs (pyLower kv.1) with
         | none => true
         | some v => decide (v ≠ kv.2)) || !ori) := by
  rw [must_reload]
  by_cases h1 : md.timestamp ≠ mt
  · simp [h1]
  · rw [if_neg h1]
    rcases hany : md.replace.any (fun kv =>
        match dlookup pairs (pyLower kv.1) with
        | none => true
        | some v => decide (v ≠ kv.2)) with _ | _
    · cases ori <;> simp [h1]
    · simp [h1]

/-! ## The claim theorems -/

/-- Claim C1: the change fingerprint `_must_reload` returns True exactly
when (a) there is no prior metadata, or (b) the stored modification time
differs from the current file modification time, or (c) some previously
resolved placeholder, matched case-insensitively, no longer resolves in the
current placeholder map or resolves to a different value, or (d) there is
no prior database-side introspection record.  In particular a changed
placeholder value forces a reload even with an unchanged modification
time. -/
theorem must_reload_spec (om : Option Metadata) (mt : Int)
    (pairs : List (String × String)) (ori : Bool) :
    must_reload om mt pairs ori = true ↔
      om = none ∨
      ∃ md, om = some md ∧
        (md.timestamp ≠ mt ∨
         (∃ kv ∈ md.replace, dlookup pairs (pyLower kv.1) ≠ some kv.2) ∨
         ori = false) := by
  cases om with
  | none => simp [must_reload]
  | some md =>
    rw [must_reload_some_eq]
    simp only [Bool.or_eq_true, decide_eq_true_eq, replace_any_iff,
      Bool.not_eq_true']
    constructor
    · rintro ((h | h) | h)
      · exact Or.inr ⟨md, rfl, Or.inl h⟩
      · exact Or.inr ⟨md, rfl, Or.inr (Or.inl h)⟩
      · exact Or.inr ⟨md, rfl, Or.inr (Or.inr h)⟩
    · rintro (h | ⟨md', heq, h⟩)
      · exact absurd h (by simp)
      · obtain rfl : md' = md := by
          injection heq with h'
          exact h'.symm
        rcases h with h | h | h
        · exact Or.inl (Or.inl h)
        · exact Or.inl (Or.inr h)
        · exact Or.inr h

/-- Claim C2: when the fingerprint is false (prior metadata present, same
stored modification time, every stored placeholder resolving unchanged,
introspection record present) the loader returns the prior metadata
unchanged with an empty operation trace; and after a successful reload, a
second run on the unchanged file with the produced metadata and a present
introspection record has a false fingerprint, returns that same metadata
with no database operation, the first run having installed exactly once. -/
theorem load_stored_routine_unchanged_spec :
    (∀ env : Env, env.file_exists = true → env.is_file = true →
      must_reload env.old_metadata env.mtime env.replace_pairs
        env.old_routine_info.isSome = false →
      load_stored_routine env = (env.old_metadata, [])) ∧
    (∀ (env : Env) (ri : RoutineInfo) (md : Metadata) (ops : List DbOp),
      env.file_exists = true → env.is_file = true →
      load_stored_routine env = (some md, ops) →
      must_reload env.old_metadata env.mtime env.replace_pairs
        env.old_routine_info.isSome = true →
      must_reload (some md) env.mtime env.replace_pairs true = false ∧
      load_stored_routine (with_prior env md ri) = (some md, []) ∧
      installCount ops = 1) := by
  constructor
  · intro env hfe hif hmr
    rw [load_stored_routine, if_pos hfe, if_pos hif,
      if_neg (by simp [hmr])]
  · intro env ri md ops hfe hif h hmr
    rw [load_stored_routine, if_pos hfe, if_pos hif,
      if_pos (by simp [hmr])] at h
    have hshape := load_reload_shape h
    have hrep := load_reload_replace h
    have hmr2 : must_reload (some md) env.mtime env.replace_pairs true
        = false := by
      apply must_reload_false_of md env.mtime env.replace_pairs hshape.2.1
      intro kv hkv
      rw [hrep] at hkv
      exact (get_placeholders_mem hkv).2
    refine ⟨hmr2, ?_, hshape.2.2⟩
    rw [load_stored_routine]
    rw [show (with_prior env md ri).file_exists = env.file_exists from rfl,
      if_pos hfe]
    rw [show (with_prior env md ri).is_file = env.is_file from rfl,
      if_pos hif]
    rw [if_neg (by
      simp only [show (with_prior env md ri).old_metadata = some md from rfl,
        show (with_prior env md ri).mtime = env.mtime from rfl,
        show (with_prior env md ri).replace_pairs = env.replace_pairs from rfl,
        show (with_prior env md ri).old_routine_info = some ri from rfl]
      simp [hmr2])]
    rw [show (with_prior env md ri).old_metadata = some md from rfl]

/-- Witness for C2 at the concrete environment `env_c2`: the first load
installs once, and rerunning on the unchanged file returns the same
metadata with no database operation. -/
theorem load_stored_routine_unchanged_witness :
    must_reload (some md_c2) env_c2.mtime env_c2.replace_pairs true = false ∧
    load_stored_routine (with_prior env_c2 md_c2 ⟨"dbo"⟩) = (some md_c2, []) ∧
    installCount ops_c2 = 1 :=
  load_stored_routine_unchanged_spec.2 env_c2 ⟨"dbo"⟩ md_c2 ops_c2
    (by decide) (by decide) (by decide) (by decide)

/-- Claim C3 (code evidence): `is_lob_parameter` is not the any-LOB
predicate its docstring and the specification describe.  The loop assigns
the table entry of each known parameter type to the single flag, so the
last known type wins: with a blob parameter followed by an int parameter it
returns False although one parameter has a LOB type according to the very
type table the function consults. -/
theorem is_lob_parameter_last_wins :
    is_lob_parameter [⟨"p1", "blob", "blob"⟩, ⟨"p2", "int", "int"⟩] = false ∧
    (∃ p ∈ ([⟨"p1", "blob", "blob"⟩, ⟨"p2", "int", "int"⟩] : List Parameter),
      dlookup lob_templates p.data_type = some true) := by
  constructor
  · decide
  · exact ⟨⟨"p1", "blob", "blob"⟩, by simp, by decide⟩

/-- Claim C4: `_get_placeholders` reports failure exactly when some matched
placeholder token has no case-insensitive entry in the placeholder map; on
failure the per-file replace map is left untouched; on success, from the
empty per-file map the loader calls it with, the map holds exactly the
distinct matched tokens in first-occurrence order, each bound to its
resolved value. -/
theorem get_placeholders_spec :
    (∀ (s : String) (pairs r₀ : List (String × String)),
      ((get_placeholders s pairs r₀).1 = false ↔
        ∃ m ∈ findPlaceholders s, dlookup pairs (pyLower m) = none)) ∧
    (∀ (s : String) (pairs r₀ : List (String × String)),
      (get_placeholders s pairs r₀).1 = false →
      (get_placeholders s pairs r₀).2 = r₀) ∧
    (∀ (s : String) (pairs : List (String × String)),
      (get_placeholders s pairs []).1 = true →
      (get_placeholders s pairs []).2 =
        (dedupFirst (findPlaceholders s)).filterMap
          (fun p => (dlookup pairs (pyLower p)).map (fun v => (p, v)))) := by
  refine ⟨get_placeholders_false_iff, get_placeholders_snd_false, ?_⟩
  intro s pairs h
  rw [get_placeholders_snd_true s pairs [] h,
    commit_eq_filterMap _ [] (dedupFirst_nodup _) (fun p _ => rfl)]
  simp

/-- Witness for C4: a source with four placeholder tokens (one repeated up
to case, one with a type suffix) commits exactly the referenced tokens with
their resolved values. -/
theorem get_placeholders_spec_witness :
    (get_placeholders "select @A@ x @a@, @b@, @B%type@"
      [("@a@", "1"), ("@b@", "2"), ("@b%type@", "int")] []).2 =
      [("@A@", "1"), ("@a@", "1"), ("@b@", "2"), ("@B%type@", "int")] := by
  rw [get_placeholders_spec.2.2 "select @A@ x @a@, @b@, @B%type@"
    [("@a@", "1"), ("@b@", "2"), ("@b%type@", "int")] (by decide)]
  decide

/-- Claim C5 (counterexample): with a recognized RDBMS tag and one
routine-scoped failure reported by the delegated generator run,
`run_command` still returns status 0: the source discards the result of
`wrapper.main` and ends with a literal `return 0`, so the claimed
equivalence between a nonzero status and a per-routine failure is false. -/
theorem run_command_ignores_failures :
    run_command "mysql" 1 = Except.ok 0 := rfl

/-- Claim C5 (amended): for any recognized RDBMS tag the wrapper command
returns status 0 whatever the per-routine outcome was, and the constants
entry point likewise always returns 0; a nonzero exit can only arise from
an exception such as the unknown-RDBMS error. -/
theorem run_command_always_zero (cfg : String) (failures : Nat)
    (h : pyLower cfg = "mysql" ∨ pyLower cfg = "mssql" ∨
      pyLower cfg = "pgsql") :
    run_command cfg failures = Except.ok 0 ∧
    (∀ cf : Option String, constants_main cf = 0) := by
  refine ⟨?_, fun cf => rfl⟩
  rcases h with h | h | h <;> rw [run_command, create_routine_wrapper_generator, h] <;> rfl

/-- Witness for C5 (amended) at a mixed-case tag and a failing run. -/
theorem run_command_always_zero_witness :
    run_command "MsSQL" 3 = Except.ok 0 ∧
    (∀ cf : Option String, constants_main cf = 0) :=
  run_command_always_zero "MsSQL" 3 (Or.inr (Or.inl (by decide)))

/-- Claim C6 (counterexample): an annotation line carrying an unknown
designation with arguments makes `_get_designation_type` fail, where the
claim says the parser succeeds and passes the designation through. -/
theorem get_designation_type_unknown_args_fails :
    get_designation_type ["-- type: frobnicate foo", "as"] = none := by
  decide

/-- Claim C6 (amended): a designation outside the three argument-taking
forms bulk_insert, rows_with_key and rows_with_index — the unknown ones,
and likewise function and procedure — is passed through uninterpreted
exactly when no argument text follows it; with arguments present the parse
fails. -/
theorem get_designation_type_unknown_passthrough (lines : List String)
    (k : Nat) (d args : String)
    (hk : lines.findIdx? (fun l => l = "as") = some k)
    (ha : parseTypeLine (pyPrevLine lines k) = some (d, args))
    (h1 : d ≠ "bulk_insert") (h2 : d ≠ "rows_with_key")
    (h3 : d ≠ "rows_with_index") :
    get_designation_type lines =
      (if args = "" then some ⟨d, none, none⟩ else none) := by
  rw [get_designation_type, hk]
  dsimp only
  rw [ha]
  dsimp only
  rw [if_neg h1, if_neg (by simp [h2, h3])]

/-- Witness for C6 (amended): an unknown designation without arguments is
passed through. -/
theorem get_designation_type_unknown_passthrough_witness :
    get_designation_type ["-- type: frobnicate", "as"] =
      some ⟨"frobnicate", none, none⟩ := by
  rw [get_designation_type_unknown_passthrough ["-- type: frobnicate", "as"]
    1 "frobnicate" "" (by decide) (by decide) (by decide) (by decide)
    (by decide)]
  rfl

/-! ## Helper lemmas for the wrapper generator -/

theorem except_bind_ok {ε α β : Type} (a : α) (f : α → Except ε β) :
    (Except.ok a >>= f : Except ε β) = f a := rfl

theorem except_bind_error {ε α β : Type} (e : ε) (f : α → Except ε β) :
    (Except.error e >>= f : Except ε β) = Except.error e := rfl

theorem mem_of_dlookup {α : Type} {m : List (String × α)} {k : String}
    {v : α} : dlookup m k = some v → (k, v) ∈ m := by
  induction m with
  | nil => intro h; exact absurd h (by simp [dlookup])
  | cons hd t ih =>
    obtain ⟨a, b⟩ := hd
    intro h
    by_cases hq : a = k
    · rw [dlookup, if_pos hq] at h
      injection h with h'
      subst h'
      subst hq
      exact List.mem_cons_self _ _
    · rw [dlookup, if_neg hq] at h
      exact List.mem_cons_of_mem _ (ih h)

/-- The source format table agrees with the specification partition: every
numeric type maps to the numeric placeholder, every other type to the
string placeholder. -/
theorem format_table_agrees :
    ∀ kv ∈ format_templates, kv.2 = spec_placeholder kv.1 := by decide

theorem spec_placeholder_ne_question (t : String) :
    ¬ spec_placeholder t = "?" := by
  rw [spec_placeholder]
  split <;> decide

theorem append_comma_ne (x y : String) : ¬ x ++ ", " ++ y = "" := by
  intro h
  have hd : (x ++ ", " ++ y).data = [] := by rw [h]
  rw [String.data_append, String.data_append] at hd
  rw [show (", " : String).data = [',', ' '] from rfl] at hd
  simp at hd

theorem joinComma_cons (x : String) (t : List String) :
    joinComma (x :: t) = x ++ prefJoin ", " t := by
  induction t generalizing x with
  | nil => rw [joinComma, prefJoin, String.append_empty]
  | cons y t2 ih =>
    rw [joinComma, ih, prefJoin]
    simp [String.append_assoc]

theorem call_list_step_ok {p : Parameter} {v : String}
    (hdl : dlookup format_templates p.data_type = some v)
    (a b : String) (i l : Nat) (ha : ¬ a = "") :
    call_list_step (a, b, i, l) p =
      Except.ok (a ++ ", " ++ p.name, b ++ ", " ++ v, i + 1, l + 1) := by
  have hv : v = spec_placeholder p.data_type :=
    format_table_agrees _ (mem_of_dlookup hdl)
  have hvq : ¬ v = "?" := by
    rw [hv]
    exact spec_placeholder_ne_question _
  rw [call_list_step, get_parameter_format_specifier, hdl]
  rw [except_bind_ok]
  simp [ha, hvq]

theorem call_list_foldl (ps : List Parameter) :
    ∀ (a b : String) (i l : Nat), ¬ a = "" →
    (∀ p ∈ ps, (dlookup format_templates p.data_type).isSome = true) →
    List.foldlM call_list_step (a, b, i, l) ps =
      Except.ok (a ++ prefJoin ", " (ps.map (fun p => p.name)),
                 b ++ prefJoin ", " (ps.map (fun p => spec_placeholder p.data_type)),
                 i + ps.length, l + ps.length) := by
  induction ps with
  | nil =>
    intro a b i l _ _
    rw [List.foldlM_nil, show (pure (a, b, i, l) :
      Except String (String × String × Nat × Nat)) = Except.ok (a, b, i, l)
      from rfl]
    simp [prefJoin, String.append_empty]
  | cons p t ih =>
    intro a b i l ha hknown
    rcases hdl : dlookup format_templates p.data_type with _ | v
    · exact absurd (hknown p (List.mem_cons_self _ _)) (by simp [hdl])
    · rw [List.foldlM_cons, call_list_step_ok hdl a b i l ha,
        except_bind_ok,
        ih _ _ _ _ (append_comma_ne a p.name)
          (fun q hq => hknown q (List.mem_cons_of_mem _ hq))]
      have hv : v = spec_placeholder p.data_type :=
        format_table_agrees _ (mem_of_dlookup hdl)
      subst hv
      simp only [List.map_cons, prefJoin, List.length_cons,
        Except.ok.injEq, Prod.mk.injEq]
      refine ⟨?_, ?_, ?_, ?_⟩
      · simp [String.append_assoc]
      · simp [String.append_assoc]
      · omega
      · omega

theorem build_call_lists_ok (ps : List Parameter)
    (hknown : ∀ p ∈ ps, (dlookup format_templates p.data_type).isSome = true)
    (hn : ∀ p ∈ ps, ¬ p.name = "") :
    build_call_lists ps =
      Except.ok (joinComma (ps.map (fun p => p.name)),
                 joinComma (ps.map (fun p => spec_placeholder p.data_type)),
                 ps.length, ps.length) := by
  cases ps with
  | nil => rfl
  | cons p t =>
    rcases hdl : dlookup format_templates p.data_type with _ | v
    · exact absurd (hknown p (List.mem_cons_self _ _)) (by simp [hdl])
    · have hv0 : v = spec_placeholder p.data_type :=
        format_table_agrees _ (mem_of_dlookup hdl)
      have hstep : call_list_step ("", "", 0, 0) p =
          Except.ok (p.name, v, 1, 1) := by
        have hvq : ¬ v = "?" := by
          rw [hv0]
          exact spec_placeholder_ne_question _
        rw [call_list_step, get_parameter_format_specifier, hdl,
          except_bind_ok]
        simp [hvq, String.empty_append]
      rw [build_call_lists, List.foldlM_cons, hstep, except_bind_ok,
        call_list_foldl t _ _ _ _ (hn p (List.mem_cons_self _ _))
          (fun q hq => hknown q (List.mem_cons_of_mem _ hq))]
      have hv : v = spec_placeholder p.data_type :=
        format_table_agrees _ (mem_of_dlookup hdl)
      subst hv
      simp only [List.map_cons, List.length_cons, Except.ok.injEq,
        Prod.mk.injEq, joinComma_cons]
      exact ⟨trivial, trivial, by omega, by omega⟩

theorem build_foldl_isOk (ps : List Parameter) :
    ∀ acc : String × String × Nat × Nat,
    (exceptOk (List.foldlM call_list_step acc ps) = true ↔
      ∀ p ∈ ps, (dlookup format_templates p.data_type).isSome = true) := by
  induction ps with
  | nil =>
    intro acc
    rw [List.foldlM_nil, show (pure acc :
      Except String (String × String × Nat × Nat)) = Except.ok acc from rfl]
    simp [exceptOk]
  | cons p t ih =>
    intro acc
    rcases hdl : dlookup format_templates p.data_type with _ | v
    · rw [List.foldlM_cons]
      rw [show call_list_step acc p = Except.error
          ("Unknown data type " ++ p.data_type ++ ".") by
        rw [call_list_step, get_parameter_format_specifier, hdl,
          except_bind_error]]
      rw [except_bind_error]
      refine iff_of_false (by simp [exceptOk]) ?_
      intro hall
      exact absurd (hall p (List.mem_cons_self _ _)) (by simp [hdl])
    · rw [List.foldlM_cons]
      obtain ⟨a, b, i, l⟩ := acc
      rw [show call_list_step (a, b, i, l) p =
          Except.ok ((if ¬ a = "" then a ++ ", " else a) ++ p.name,
            (if ¬ a = "" then b ++ ", " else b) ++ v, i + 1,
            if ¬ v = "?" then l + 1 else l) by
        rw [call_list_step, get_parameter_format_specifier, hdl,
          except_bind_ok]]
      rw [except_bind_ok, ih]
      constructor
      · intro hall q hq
        rcases List.mem_cons.mp hq with h1 | h1
        · subst h1; simp [hdl]
        · exact hall q h1
      · intro hall q hq
        exact hall q (List.mem_cons_of_mem _ hq)

theorem generate_isOk_eq (r : Metadata) :
    exceptOk (generate_command r) = exceptOk (build_call_lists r.parameters) := by
  rw [generate_command]
  rcases hb : build_call_lists r.parameters with e | acc
  · rfl
  · rw [except_bind_ok]
    obtain ⟨pa, pb, pi, pl⟩ := acc
    by_cases h0 : pl = 0
    · simp [h0, exceptOk]
    · by_cases h1 : pl = 1 <;> simp [h0, h1, exceptOk]

/-- Claim C7: `_generate_command` emits exactly one format placeholder per
parameter, in parameter order, numeric types mapping to the numeric
placeholder and every text, binary and temporal type to the string
placeholder; a data type outside the table makes generation fail rather
than fall back to a default.  In particular int-then-varchar parameters
give a numeric-then-string call string. -/
theorem generate_command_spec :
    (∀ r : Metadata,
      exceptOk (generate_command r) = true ↔
        ∀ p ∈ r.parameters,
          (dlookup format_templates p.data_type).isSome = true) ∧
    (∀ ps : List Parameter,
      (∀ p ∈ ps, (dlookup format_templates p.data_type).isSome = true) →
      (∀ p ∈ ps, ¬ p.name = "") →
      build_call_lists ps =
        Except.ok (joinComma (ps.map (fun p => p.name)),
                   joinComma (ps.map (fun p => spec_placeholder p.data_type)),
                   ps.length, ps.length)) ∧
    generate_command routine_c7 =
      Except.ok "\"call foo(%d, %s)\" % (p_count, p_name)" := by
  refine ⟨?_, build_call_lists_ok, rfl⟩
  intro r
  rw [generate_isOk_eq, build_call_lists, build_foldl_isOk]

/-- Witness for C7: the int-then-varchar parameter list yields the numeric
then the string placeholder, in that order. -/
theorem generate_command_spec_witness :
    build_call_lists params_c7 =
      Except.ok (joinComma (params_c7.map (fun p => p.name)),
                 joinComma (params_c7.map (fun p => spec_placeholder p.data_type)),
                 params_c7.length, params_c7.length) :=
  generate_command_spec.2.1 params_c7 (by decide) (by decide)

/-- Claim C8: whatever the outcome of a load, the replace map inside the
metadata it returns holds none of the four magic placeholder keys, provided
the prior metadata (which the skip path returns unchanged) held none.  On
the reload path the magic constants live in the per-file map only between
`_set_magic_constants` and `_unset_magic_constants`, and every key the
placeholder extraction commits starts with the token marker. -/
theorem load_no_magic_in_metadata (env : Env) (md : Metadata)
    (hold : ∀ md₀, env.old_metadata = some md₀ →
      ∀ k ∈ magic_keys, dlookup md₀.replace k = none)
    (h : (load_stored_routine env).1 = some md) :
    ∀ k ∈ magic_keys, dlookup md.replace k = none := by
  rw [load_stored_routine] at h
  by_cases hfe : env.file_exists = true
  · rw [if_pos hfe] at h
    by_cases hif : env.is_file = true
    · rw [if_pos hif] at h
      by_cases hmr : must_reload env.old_metadata env.mtime
          env.replace_pairs env.old_routine_info.isSome = true
      · rw [if_pos (by simp [hmr])] at h
        rcases hlr : load_reload env
            (splitextRoot (basenameP env.source_filename)) with ⟨res, ops⟩
        rw [hlr] at h
        obtain rfl : res = some md := h
        rw [load_reload_replace hlr]
        exact get_placeholders_fresh_magic env.source_code env.replace_pairs
      · rw [if_neg hmr] at h
        exact hold md h
    · rw [if_neg hif] at h
      exact absurd h (by simp)
  · rw [if_neg hfe] at h
    exact absurd h (by simp)

/-- Witness for C8: the load of `env_c8` (placeholder committed, magic
constants used during substitution) yields metadata whose replace map has
no magic key. -/
theorem load_no_magic_in_metadata_witness :
    dlookup md_c8.replace "__FILE__" = none ∧
    dlookup md_c8.replace "__ROUTINE__" = none ∧
    dlookup md_c8.replace "__DIR__" = none ∧
    dlookup md_c8.replace "__LINE__" = none :=
  have h := load_no_magic_in_metadata env_c8 md_c8
    (fun md₀ hmd => absurd hmd (by simp [env_c8]))
    (by decide)
  ⟨h "__FILE__" (by decide), h "__ROUTINE__" (by decide),
   h "__DIR__" (by decide), h "__LINE__" (by decide)⟩

/-- Claim C9 (code evidence): the mssql loader succeeds on a bulk-insert
routine declaring three columns although the database describes the target
table with four columns, because the call to the cross-check is commented
out in `load_stored_routine` — the environment does not even reach the
table introspection.  `get_bulk_insert_table_columns_info` itself raises on
exactly this data, which is what the claim and the specification expect of
the load. -/
theorem bulk_insert_mismatch_not_fatal :
    (load_stored_routine env_c9).1 = some md_c9 ∧
    md_c9.designation = "bulk_insert" ∧
    md_c9.columns = some ["a", "b", "c"] ∧
    installCount (load_stored_routine env_c9).2 = 1 ∧
    exceptOk (get_bulk_insert_table_columns_info cols_c9 ["a", "b", "c"])
      = false := by
  refine ⟨by decide, rfl, rfl, by decide, ?_⟩
  rfl

/-- Claim C10: the LOB-as-string branch of `write_routine_method` is taken
exactly when the constructor argument is the exact string True; for every
other value — the boolean True included — the flag is unset and
`is_lob_parameter` alone decides between the LOB-aware and the plain
branch. -/
theorem write_routine_method_path_spec :
    (∀ (arg : PyVal) (ps : List Parameter),
      write_routine_method_path arg ps = EmissionPath.lobAsString ↔
        arg = PyVal.str "True") ∧
    (∀ (arg : PyVal) (ps : List Parameter), arg ≠ PyVal.str "True" →
      write_routine_method_path arg ps =
        (if is_lob_parameter ps then EmissionPath.lobAware
         else EmissionPath.plain)) := by
  have hflag : ∀ arg : PyVal,
      wrapper_lob_as_string_flag arg = true ↔ arg = PyVal.str "True" := by
    intro arg
    cases arg with
    | str s => simp [wrapper_lob_as_string_flag, pyEq]
    | bool b => simp [wrapper_lob_as_string_flag, pyEq]
  constructor
  · intro arg ps
    rw [write_routine_method_path]
    by_cases hf : wrapper_lob_as_string_flag arg = true
    · rw [if_pos hf]
      simp [(hflag arg).mp hf]
    · rw [if_neg hf]
      have hne : ¬ arg = PyVal.str "True" :=
        fun hh => hf ((hflag arg).mpr hh)
      rcases hl : is_lob_parameter ps with _ | _ <;> simp [hne]
  · intro arg ps hne
    have hf : ¬ wrapper_lob_as_string_flag arg = true :=
      fun hh => hne ((hflag arg).mp hh)
    rw [write_routine_method_path, if_neg hf]

/-- Witness for C10: the boolean True does not enable the LOB-as-string
branch; the LOB predicate decides instead. -/
theorem write_routine_method_path_witness :
    write_routine_method_path (PyVal.bool true)
        [⟨"p2", "int", "int"⟩, ⟨"p1", "blob", "blob"⟩] =
      (if is_lob_parameter [⟨"p2", "int", "int"⟩, ⟨"p1", "blob", "blob"⟩]
       then EmissionPath.lobAware else EmissionPath.plain) :=
  write_routine_method_path_spec.2 (PyVal.bool true)
    [⟨"p2", "int", "int"⟩, ⟨"p1", "blob", "blob"⟩] (by decide)

end PyStratum
